import Mathlib

/-!
Shallow embedding of `src/ai_worker/main.py` (the gputopia worker).

Modelling conventions:
* Python exceptions are a `PyError` value (exception class name + message);
  fallible code returns `Except PyError` or an explicit `Option PyError`
  paired with the state reached when the exception escaped.
* Python numbers are modelled exactly: `int` as `ℤ`/`ℕ`, `float` arithmetic
  as `ℚ` (the estimator's arithmetic is exact at all inputs of interest, so
  `//` on floats is `Rat.floor` of the exact quotient).
* External collaborators (websocket peer, pydantic JSON parsing, the
  `gguf_loader` download, `GGUFReader` header fields, `create_llama_app`,
  the httpx backend calls) are oracles collected in an `Env` record; the
  worker's own control flow is translated statement by statement.
* The messages a coroutine sends on the open websocket are collected into a
  `List String` in send order; "the connection stays open" is the regime in
  which these theorems are stated.
-/

namespace AiWorker

/-- A raised Python exception: class name (`type(ex).__name__`) and message. -/
structure PyError where
  ty : String
  msg : String
deriving Repr, DecidableEq

/-- Result of a Python computation that may raise. -/
abbrev Exc (α : Type) := Except PyError α

instance {ε α : Type} [DecidableEq ε] [DecidableEq α] : DecidableEq (Except ε α) := fun x y =>
  match x, y with
  | .ok a, .ok b =>
    if h : a = b then isTrue (h ▸ rfl) else isFalse (fun hh => h (Except.ok.inj hh))
  | .error a, .error b =>
    if h : a = b then isTrue (h ▸ rfl) else isFalse (fun hh => h (Except.error.inj hh))
  | .ok _, .error _ => isFalse (fun hh => Except.noConfusion hh)
  | .error _, .ok _ => isFalse (fun hh => Except.noConfusion hh)

/-- `NvidiaGpuInfo` (main.py lines 32-35): every field optional. -/
structure NvidiaGpuInfo where
  name : Option String
  uuid : Option String
  memory : Option ℚ
deriving Repr, DecidableEq

/-- `ConnectMessage` (main.py lines 38-44): the capability descriptor. -/
structure ConnectMessage where
  ln_url : String
  cpu_count : ℕ
  vram : ℕ
  nv_gpu_count : Option ℕ
  nv_driver_version : Option String
  nv_gpus : List NvidiaGpuInfo
deriving Repr, DecidableEq

/-- `Config` (main.py lines 47-57). -/
structure Config where
  auth_key : String
  spider_url : String
  ln_url : String
  once : Bool
  debug : Bool
  test_model : String
  test_max_tokens : ℤ
  low_vram : Bool
  force_layers : ℤ
deriving Repr, DecidableEq

/-- What `GGUFReader(path)` exposes to `guess_layers`: `rd.layers()` and
`rd.vram_estimate()` (the reader itself lives outside `main.py`; only these
two header-derived numbers are consumed). -/
structure ModelMetadata where
  layers : ℤ
  vram_estimate : ℚ
deriving Repr, DecidableEq

/-- The `TypeError` Python raises at `gpu.memory * 1000000` when
`gpu.memory` is `None` (main.py line 127). -/
def gpuMemTypeError : PyError :=
  ⟨"TypeError", "unsupported operand type(s) for *: 'NoneType' and 'int'"⟩

/-- The `ZeroDivisionError` raised by `est_ram/layers` when `layers == 0`,
or by `tot_mem // 0.0` (main.py line 130). -/
def zeroDivisionError : PyError := ⟨"ZeroDivisionError", "division by zero"⟩

/-- The `tot_mem` accumulation loop (main.py lines 124-127): left-to-right
fold of `tot_mem += gpu.memory * 1000000`; raises `TypeError` at the first
gpu whose `memory` is unset. -/
def sumGpuMem (gpus : List NvidiaGpuInfo) : Exc ℚ :=
  gpus.foldlM
    (fun tot_mem gpu =>
      match gpu.memory with
      | none => .error gpuMemTypeError
      | some m => .ok (tot_mem + m * 1000000))
    0

/-- `WorkerMain.guess_layers` (main.py lines 113-136).  `meta` is the
outcome of `GGUFReader(model_path)` plus its two field reads; `info` is
`self.connect_info()`. -/
def guess_layers (conf : Config) (info : ConnectMessage) (meta : Exc ModelMetadata) : Exc ℚ :=
  if conf.force_layers ≠ 0 then
    .ok (conf.force_layers : ℚ)
  else
    match meta with
    | .error e => .error e
    | .ok rd =>
      let layers : ℤ := rd.layers
      let est_ram : ℚ := rd.vram_estimate
      match sumGpuMem info.nv_gpus with
      | .error e => .error e
      | .ok tot_mem =>
        if est_ram > tot_mem then
          if (layers : ℚ) = 0 then .error zeroDivisionError
          else if est_ram / (layers : ℚ) = 0 then .error zeroDivisionError
          else .ok ((Rat.floor (tot_mem / (est_ram / (layers : ℚ))) : ℤ) : ℚ)
        else
          .ok (layers : ℚ)

/-- `LlamaSettings` as constructed at main.py lines 142-143 (field order as
in the call). -/
structure LlamaSettings where
  model : String
  n_gpu_layers : ℚ
  seed : ℤ
  embedding : Bool
  cache : Bool
  low_vram : Bool
  port : ℤ
deriving Repr, DecidableEq

/-- Opaque handle for the object returned by `create_llama_app`. -/
structure LlamaApp where
  tag : ℕ
deriving Repr, DecidableEq

/-- `httpx.AsyncClient(app=..., base_url=...)` (main.py line 145); plain
object construction, does not raise for these constant arguments. -/
structure AsyncClient where
  app : LlamaApp
  base_url : String
deriving Repr, DecidableEq

/-- The mutable fields of `WorkerMain` (main.py lines 61-67), in
`__init__` order. -/
structure WorkerState where
  stopped : Bool
  llama : Option LlamaApp
  llama_model : Option String
  llama_cli : Option AsyncClient
deriving Repr, DecidableEq

/-- The state right after `WorkerMain.__init__`. -/
def initState : WorkerState := ⟨false, none, none, none⟩

/-- Payload dict of a request: the two recognized keys (`model` via
`.get("model")`, truthiness of `.get("stream")`); everything else is opaque
passthrough carried in `rest`. -/
structure Payload where
  model : Option String
  stream : Bool
  rest : List (String × String)
deriving Repr, DecidableEq

/-- `Req` (main.py lines 27-29). -/
structure Req where
  openai_url : String
  openai_req : Payload
deriving Repr, DecidableEq

/-- Observable calls to the expensive collaborators made during one
`load_model` run: `get_model` (acquisition) and `create_llama_app`
(backend construction). -/
inductive LoadEvent where
  | resolve (name : Option String)
  | createApp (settings : LlamaSettings)
deriving Repr, DecidableEq

/-- Oracles for the external collaborators consumed by `main.py`. -/
structure Env where
  parse : String → Exc Req
  get_model : Option String → Exc String
  gguf : String → Exc ModelMetadata
  create_app : LlamaSettings → Exc LlamaApp
  post : AsyncClient → String → Payload → Exc String
  sse : AsyncClient → String → Payload → List String × Option PyError

/-- `WorkerMain.load_model` (main.py lines 138-145), translated statement
by statement.  Returns the state after the call, the exception that escaped
(if any) with the state at the moment it escaped, and the trace of
expensive-collaborator calls made.  Note the source never assigns
`self.llama_model`. -/
def load_model (env : Env) (conf : Config) (info : ConnectMessage)
    (st : WorkerState) (name : Option String) :
    WorkerState × Option PyError × List LoadEvent :=
  if name = st.llama_model then
    (st, none, [])
  else
    match env.get_model name with
    | .error e => (st, some e, [.resolve name])
    | .ok model_path =>
      match guess_layers conf info (env.gguf model_path) with
      | .error e => (st, some e, [.resolve name])
      | .ok n_gpu_layers =>
        let settings : LlamaSettings :=
          ⟨model_path, n_gpu_layers, -1, true, true, conf.low_vram, 8181⟩
        match env.create_app settings with
        | .error e => (st, some e, [.resolve name, .createApp settings])
        | .ok app =>
          ({ st with llama := some app,
                     llama_cli := some ⟨app, "http://test"⟩ },
           none, [.resolve name, .createApp settings])

/-- `json.dumps({"error": str(ex), "error_type": type(ex).__name__})`
(main.py line 209). -/
def errorMsg (e : PyError) : String :=
  "\x7b\"error\": \"" ++ e.msg ++ "\", \"error_type\": \"" ++ e.ty ++ "\"\x7d"

/-- `AttributeError` raised when `self.llama_cli` is `None` and the
streaming branch enters `aconnect_sse(self.llama_cli, ...)` (main.py
line 200). -/
def sseNoneAttrError : PyError :=
  ⟨"AttributeError", "'NoneType' object has no attribute 'stream'"⟩

/-- `AttributeError` raised by `self.llama_cli.post(...)` when
`self.llama_cli` is `None` (main.py line 205). -/
def postNoneAttrError : PyError :=
  ⟨"AttributeError", "'NoneType' object has no attribute 'post'"⟩

/-- The `try:` block of `WorkerMain.run_one` (main.py lines 193-206):
state after the block, websocket messages sent inside the block, and the
exception that escaped the block (if any). -/
def run_one_try (env : Env) (conf : Config) (info : ConnectMessage)
    (st : WorkerState) (req_str : String) :
    WorkerState × List String × Option PyError :=
  match env.parse req_str with
  | .error e => (st, [], some e)
  | .ok req =>
    match load_model env conf info st req.openai_req.model with
    | (st1, some e, _) => (st1, [], some e)
    | (st1, none, _) =>
      if req.openai_req.stream then
        match st1.llama_cli with
        | none => (st1, [], some sseNoneAttrError)
        | some cli =>
          match env.sse cli req.openai_url req.openai_req with
          | (frags, some e) => (st1, frags, some e)
          | (frags, none) => (st1, frags ++ [""], none)
      else
        match st1.llama_cli with
        | none => (st1, [], some postNoneAttrError)
        | some cli =>
          match env.post cli req.openai_url req.openai_req with
          | .error e => (st1, [], some e)
          | .ok body => (st1, [body], none)

/-- `WorkerMain.run_one` (main.py lines 191-209): the `try` block followed
by the `except Exception` handler that sends one structured error message. -/
def run_one (env : Env) (conf : Config) (info : ConnectMessage)
    (st : WorkerState) (req_str : String) : WorkerState × List String :=
  match run_one_try env conf info st req_str with
  | (st1, msgs, none) => (st1, msgs)
  | (st1, msgs, some e) => (st1, msgs ++ [errorMsg e])

/-- JSON encoding of an optional string (pydantic `model_dump_json`). -/
def jsonOptStr : Option String → String
  | none => "null"
  | some s => "\"" ++ s ++ "\""

/-- JSON encoding of an optional number. -/
def jsonOptRat : Option ℚ → String
  | none => "null"
  | some q => toString q

/-- JSON encoding of an optional natural. -/
def jsonOptNat : Option ℕ → String
  | none => "null"
  | some n => toString n

/-- JSON encoding of one `NvidiaGpuInfo`. -/
def jsonGpu (g : NvidiaGpuInfo) : String :=
  "\x7b\"name\": " ++ jsonOptStr g.name ++ ", \"uuid\": " ++ jsonOptStr g.uuid ++
    ", \"memory\": " ++ jsonOptRat g.memory ++ "\x7d"

/-- `WorkerMain.connect_message` (main.py lines 178-180):
`info.model_dump_json()` for the memoized capability descriptor. -/
def connect_message (info : ConnectMessage) : String :=
  "\x7b\"ln_url\": \"" ++ info.ln_url ++ "\", \"cpu_count\": " ++ toString info.cpu_count ++
    ", \"vram\": " ++ toString info.vram ++
    ", \"nv_gpu_count\": " ++ jsonOptNat info.nv_gpu_count ++
    ", \"nv_driver_version\": " ++ jsonOptStr info.nv_driver_version ++
    ", \"nv_gpus\": [" ++ String.intercalate ", " (info.nv_gpus.map jsonGpu) ++ "]\x7d"

/-- The `while not self.stopped` loop of `WorkerMain.run_ws` (main.py lines
185-189) over the job messages received while this connection stays open:
runs `run_one` per message, and with `conf.once` sets the stop flag after
the first job. -/
def serve (env : Env) (conf : Config) (info : ConnectMessage) :
    WorkerState → List String → WorkerState × List String
  | st, [] => (st, [])
  | st, req_str :: rest =>
    if st.stopped then (st, [])
    else
      let p1 := run_one env conf info st req_str
      let st2 := if conf.once then { p1.1 with stopped := true } else p1.1
      let p2 := serve env conf info st2 rest
      (p2.1, p1.2 ++ p2.2)

/-- `WorkerMain.run_ws` (main.py lines 182-189): send the serialized
capability descriptor, then serve jobs until stop or connection close. -/
def run_ws (env : Env) (conf : Config) (info : ConnectMessage)
    (st : WorkerState) (reqs : List String) : WorkerState × List String :=
  let p := serve env conf info st reqs
  (p.1, connect_message info :: p.2)

/-- The reconnect loop of `WorkerMain.run` (main.py lines 103-111): one
entry of `conns` per successfully opened connection, carrying the job
messages received before that connection closed; returns the messages sent
on each connection. -/
def run_conns (env : Env) (conf : Config) (info : ConnectMessage) :
    WorkerState → List (List String) → List (List String)
  | _, [] => []
  | st, c :: cs =>
    if st.stopped then []
    else
      let p := run_ws env conf info st c
      p.2 :: (if p.1.stopped then [] else run_conns env conf info p.1 cs)

/-- Reference estimator, following the spec's words (§4.2 / §8): return
`layer_count` when the model fits, otherwise
`floor(total_accelerator_memory / (estimated_full_memory / layer_count))`. -/
def spec_estimate_offload_layers (layer_count : ℤ) (est_full τ : ℚ) : ℚ :=
  if est_full ≤ τ then (layer_count : ℚ)
  else ((⌊τ / (est_full / (layer_count : ℚ))⌋ : ℤ) : ℚ)

/-! Concrete fixtures used by the witnesses. -/

/-- Default-like configuration with no layer override. -/
def conf0 : Config :=
  ⟨"", "wss://gputopia.ai/api/v1", "DONT_PAY_ME", false, false, "", 16, false, 0⟩

/-- A config forcing five offload layers. -/
def conf5 : Config :=
  ⟨"", "wss://gputopia.ai/api/v1", "DONT_PAY_ME", false, false, "", 16, false, 5⟩

/-- One gpu reporting 4000 MB, so 4 000 000 000 bytes total. -/
def gpus0 : List NvidiaGpuInfo := [⟨some "g", some "u", some 4000⟩]

/-- A capability descriptor carrying `gpus0`. -/
def info0 : ConnectMessage := ⟨"DONT_PAY_ME", 8, 1000, some 1, some "535", gpus0⟩

/-- Descriptor with 1000 MB of accelerator memory. -/
def info1g : ConnectMessage :=
  ⟨"DONT_PAY_ME", 8, 1000, some 1, some "535", [⟨some "g", some "u", some 1000⟩]⟩

/-- Descriptor with 2000 MB of accelerator memory. -/
def info2g : ConnectMessage :=
  ⟨"DONT_PAY_ME", 8, 1000, some 1, some "535", [⟨some "g", some "u", some 2000⟩]⟩

/-- Descriptor whose single accelerator entry has no `memory_total`. -/
def infoNoMem : ConnectMessage :=
  ⟨"DONT_PAY_ME", 8, 1000, some 1, some "535", [⟨some "g", some "u", none⟩]⟩

/-- A state with a model already resident. -/
def stPre : WorkerState := ⟨false, some ⟨7⟩, some "k", some ⟨⟨7⟩, "http://test"⟩⟩

/-- Environment in which every collaborator succeeds. -/
def envOk : Env :=
  ⟨fun _ => .ok ⟨"/v1/chat/completions", ⟨some "m", false, []⟩⟩,
   fun _ => .ok "/models/m.gguf",
   fun _ => .ok ⟨32, 16000000000⟩,
   fun _ => .ok ⟨1⟩,
   fun _ _ _ => .ok "body",
   fun _ _ _ => (["a", "b"], none)⟩

/-- Environment whose model acquisition fails. -/
def envDlFail : Env :=
  ⟨fun _ => .error ⟨"ValueError", "bad request"⟩,
   fun _ => .error ⟨"HTTPError", "download failed"⟩,
   fun _ => .ok ⟨32, 16000000000⟩,
   fun _ => .ok ⟨1⟩,
   fun _ _ _ => .ok "body",
   fun _ _ _ => ([], none)⟩

/-- Environment whose job parsing fails. -/
def envParseFail : Env :=
  ⟨fun _ => .error ⟨"ValidationError", "1 validation error for Req"⟩,
   fun _ => .ok "/models/m.gguf",
   fun _ => .ok ⟨32, 16000000000⟩,
   fun _ => .ok ⟨1⟩,
   fun _ _ _ => .ok "body",
   fun _ _ _ => ([], none)⟩

/-- Environment delivering a streaming job for the already-resident slot. -/
def envStream : Env :=
  ⟨fun _ => .ok ⟨"/v1/chat/completions", ⟨some "k", true, []⟩⟩,
   fun _ => .ok "/models/m.gguf",
   fun _ => .ok ⟨32, 16000000000⟩,
   fun _ => .ok ⟨1⟩,
   fun _ _ _ => .ok "body",
   fun _ _ _ => (["f1", "f2"], none)⟩

/-- Environment delivering a job whose payload has no `model` key. -/
def envNoModel : Env :=
  ⟨fun _ => .ok ⟨"/v1/chat/completions", ⟨none, false, []⟩⟩,
   fun _ => .ok "/models/m.gguf",
   fun _ => .ok ⟨32, 16000000000⟩,
   fun _ => .ok ⟨1⟩,
   fun _ _ _ => .ok "body",
   fun _ _ _ => ([], none)⟩

/-! Helper lemmas. -/

/-- `Rat.floor` agrees with the mathematical floor. -/
lemma rat_floor_eq_floor (q : ℚ) : ((Rat.floor q : ℤ) : ℚ) = ((⌊q⌋ : ℤ) : ℚ) := by
  rw [Rat.floor_def, Rat.floor_def']

lemma spec_estimate_shortfall_le (L : ℤ) (est t : ℚ) (hL : 0 < L) (ht : 0 ≤ t)
    (hlt : t < est) : ((⌊t / (est / (L : ℚ))⌋ : ℤ) : ℚ) ≤ (L : ℚ) := by
  have hest : 0 < est := lt_of_le_of_lt ht hlt
  have hLq : (0 : ℚ) < (L : ℚ) := by exact_mod_cast hL
  have hx : t / (est / (L : ℚ)) < (L : ℚ) := by
    rw [div_div_eq_mul_div, div_lt_iff₀ hest, mul_comm]
    exact mul_lt_mul_of_pos_left hlt hLq
  calc ((⌊t / (est / (L : ℚ))⌋ : ℤ) : ℚ) ≤ t / (est / (L : ℚ)) := Int.floor_le _
    _ ≤ (L : ℚ) := le_of_lt hx

lemma spec_estimate_le_layers (L : ℤ) (est t : ℚ) (hL : 0 < L) (ht : 0 ≤ t) :
    spec_estimate_offload_layers L est t ≤ (L : ℚ) := by
  unfold spec_estimate_offload_layers
  split
  · exact le_refl _
  · exact spec_estimate_shortfall_le L est t hL ht (lt_of_not_le (by assumption))

lemma spec_estimate_mono (L : ℤ) (est : ℚ) {t1 t2 : ℚ} (hL : 0 < L) (ht1 : 0 ≤ t1)
    (h : t1 ≤ t2) :
    spec_estimate_offload_layers L est t1 ≤ spec_estimate_offload_layers L est t2 := by
  unfold spec_estimate_offload_layers
  split
  · split
    · exact le_refl _
    · exact absurd ((by assumption : est ≤ t1).trans h) (by assumption)
  · split
    · exact spec_estimate_shortfall_le L est t1 hL ht1 (lt_of_not_le (by assumption))
    · have hest : 0 < est := lt_of_le_of_lt ht1 (lt_of_not_le (by assumption))
      have hLq : (0 : ℚ) < (L : ℚ) := by exact_mod_cast hL
      have hd : 0 < est / (L : ℚ) := div_pos hest hLq
      have : t1 / (est / (L : ℚ)) ≤ t2 / (est / (L : ℚ)) := by gcongr
      exact_mod_cast Int.floor_le_floor this

/-- Core refinement: with no override and a readable header, `guess_layers`
computes the spec estimator of the descriptor's summed accelerator memory. -/
lemma guess_layers_eq_spec (conf : Config) (info : ConnectMessage) (L : ℤ) (est t : ℚ)
    (hf : conf.force_layers = 0) (hL : 0 < L) (ht : 0 ≤ t)
    (hsum : sumGpuMem info.nv_gpus = .ok t) :
    guess_layers conf info (.ok ⟨L, est⟩) = .ok (spec_estimate_offload_layers L est t) := by
  unfold guess_layers spec_estimate_offload_layers
  simp only [hf, ne_eq, not_true_eq_false, if_false, hsum, ite_not]
  by_cases hc : est > t
  · have hest : 0 < est := lt_of_le_of_lt ht hc
    have hLq : ((L : ℚ)) ≠ 0 := by
      exact_mod_cast hL.ne'
    have hdiv : est / (L : ℚ) ≠ 0 := div_ne_zero hest.ne' hLq
    simp [hc, not_le.mpr hc, hLq, hdiv, rat_floor_eq_floor]
  · simp [hc, le_of_not_lt hc]

/-! The claims. -/

/-- C1: an exception escaping the `try` block of `run_one` is converted to
exactly one structured error message appended to whatever the block had
already sent, and the serving loop goes on to the next job. -/
theorem run_one_error_containment (env : Env) (conf : Config) (info : ConnectMessage)
    (st : WorkerState) (req_str : String) (st1 : WorkerState) (msgs : List String)
    (e : PyError)
    (h : run_one_try env conf info st req_str = (st1, msgs, some e))
    (honce : conf.once = false) (hstop : st.stopped = false) :
    run_one env conf info st req_str = (st1, msgs ++ [errorMsg e]) ∧
    ∀ rest : List String,
      serve env conf info st (req_str :: rest) =
        ((serve env conf info st1 rest).1,
          (msgs ++ [errorMsg e]) ++ (serve env conf info st1 rest).2) := by
  have hro : run_one env conf info st req_str = (st1, msgs ++ [errorMsg e]) := by
    unfold run_one
    rw [h]
  refine ⟨hro, fun rest => ?_⟩
  rw [serve]
  simp [hstop, honce, hro]

/-- C1 witness: an unparsable job yields one error message and nothing else. -/
theorem run_one_error_containment_witness :
    run_one_try envParseFail conf0 info0 initState "junk"
      = (initState, [], some ⟨"ValidationError", "1 validation error for Req"⟩) ∧
    run_one envParseFail conf0 info0 initState "junk"
      = (initState, [errorMsg ⟨"ValidationError", "1 validation error for Req"⟩]) := by
  have h : run_one_try envParseFail conf0 info0 initState "junk"
      = (initState, [], some ⟨"ValidationError", "1 validation error for Req"⟩) := by
    simp [run_one_try, envParseFail]
  refine ⟨h, ?_⟩
  have h2 := (run_one_error_containment envParseFail conf0 info0 initState "junk"
    initState [] ⟨"ValidationError", "1 validation error for Req"⟩ h rfl rfl).1
  simpa using h2

/-- C2 (code bug): after a fully successful `load_model "m"`, the resident
model name is still unset — the source never assigns `self.llama_model` —
so a second `load_model "m"` repeats the whole expensive load path
(acquisition and backend construction again) instead of being a no-op. -/
theorem load_model_second_call_repeats_load :
    (load_model envOk conf0 info0 initState (some "m")).2.1 = none ∧
    (load_model envOk conf0 info0 initState (some "m")).1.llama_model = none ∧
    (load_model envOk conf0 info0 (load_model envOk conf0 info0 initState (some "m")).1
        (some "m")).2.2 =
      [.resolve (some "m"), .createApp ⟨"/models/m.gguf", 8, -1, true, true, false, 8181⟩] := by
  have hg : guess_layers conf0 info0 (.ok ⟨32, 16000000000⟩) = .ok 8 := by
    have hsum : sumGpuMem gpus0 = .ok 4000000000 := by
      simp [sumGpuMem, gpus0, List.foldlM]; norm_num
    have h := guess_layers_eq_spec conf0 info0 32 16000000000 4000000000 rfl
      (by norm_num) (by norm_num) hsum
    rw [h]
    unfold spec_estimate_offload_layers
    norm_num
  have h1 : load_model envOk conf0 info0 initState (some "m") =
      (⟨false, some ⟨1⟩, none, some ⟨⟨1⟩, "http://test"⟩⟩, none,
        [.resolve (some "m"), .createApp ⟨"/models/m.gguf", 8, -1, true, true, false, 8181⟩]) := by
    unfold load_model
    simp [initState, envOk, hg, show conf0.low_vram = false from rfl]
  rw [h1]
  refine ⟨rfl, rfl, ?_⟩
  unfold load_model
  simp [envOk, hg, show conf0.low_vram = false from rfl]

/-- C3: with no override, `guess_layers` equals the spec's reference
estimator of the summed accelerator memory; at 32 layers, a 16 GB estimate
and 4 GB of accelerator memory it returns 8 (see the witness). -/
theorem guess_layers_matches_spec (conf : Config) (info : ConnectMessage) (L : ℤ) (est t : ℚ)
    (hf : conf.force_layers = 0) (hL : 0 < L) (ht : 0 ≤ t)
    (hsum : sumGpuMem info.nv_gpus = .ok t) :
    guess_layers conf info (.ok ⟨L, est⟩) = .ok (spec_estimate_offload_layers L est t) :=
  guess_layers_eq_spec conf info L est t hf hL ht hsum

/-- C3 witness: 32 layers, 16 GB estimate, 4 GB of accelerator memory gives 8. -/
theorem guess_layers_matches_spec_witness :
    sumGpuMem gpus0 = .ok 4000000000 ∧
    guess_layers conf0 info0 (.ok ⟨32, 16000000000⟩) = .ok 8 := by
  have hsum : sumGpuMem gpus0 = .ok 4000000000 := by
    simp [sumGpuMem, gpus0, List.foldlM]; norm_num
  refine ⟨hsum, ?_⟩
  have h := guess_layers_matches_spec conf0 info0 32 16000000000 4000000000 rfl
    (by norm_num) (by norm_num) hsum
  rw [h]
  unfold spec_estimate_offload_layers
  norm_num

/-- C4 (code bug): an accelerator entry with unset memory makes
`guess_layers` raise `TypeError` at `gpu.memory * 1000000`, even for a
perfectly readable model file — it is not treated as contributing zero. -/
theorem guess_layers_raises_on_unset_gpu_memory :
    guess_layers conf0 infoNoMem (.ok ⟨32, 16000000000⟩) = .error gpuMemTypeError := by
  simp [guess_layers, conf0, infoNoMem, sumGpuMem, List.foldlM]

/-- C5: any exception escaping `load_model` leaves the worker state exactly
as it was before the call. -/
theorem load_model_state_unchanged_on_failure (env : Env) (conf : Config)
    (info : ConnectMessage) (st : WorkerState) (name : Option String)
    (st1 : WorkerState) (e : PyError) (tr : List LoadEvent)
    (h : load_model env conf info st name = (st1, some e, tr)) : st1 = st := by
  unfold load_model at h
  split at h
  · simp only [Prod.mk.injEq] at h
    exact absurd h.2.1.symm (by simp)
  · split at h
    · simp only [Prod.mk.injEq] at h
      exact h.1.symm
    · split at h
      · simp only [Prod.mk.injEq] at h
        exact h.1.symm
      · dsimp only at h
        split at h
        · simp only [Prod.mk.injEq] at h
          exact h.1.symm
        · simp only [Prod.mk.injEq] at h
          exact absurd h.2.1.symm (by simp)

/-- C5 witness: a failing download leaves the resident slot untouched. -/
theorem load_model_state_unchanged_on_failure_witness :
    load_model envDlFail conf0 info0 stPre (some "m")
      = (stPre, some ⟨"HTTPError", "download failed"⟩, [.resolve (some "m")]) ∧
    stPre = stPre := by
  have h : load_model envDlFail conf0 info0 stPre (some "m")
      = (stPre, some ⟨"HTTPError", "download failed"⟩, [.resolve (some "m")]) := by
    simp [load_model, envDlFail, stPre]
  exact ⟨h, load_model_state_unchanged_on_failure envDlFail conf0 info0 stPre (some "m")
    stPre ⟨"HTTPError", "download failed"⟩ [.resolve (some "m")] h⟩

/-- C6: a nonzero `force_layers` is returned unchanged, whatever the
descriptor and whatever the model file inspection would have produced
(even a failed read — so the file is never inspected). -/
theorem guess_layers_force_override (conf : Config) (info : ConnectMessage)
    (meta : Exc ModelMetadata) (h : conf.force_layers ≠ 0) :
    guess_layers conf info meta = .ok (conf.force_layers : ℚ) := by
  simp [guess_layers, h]

/-- C6 witness: override 5 wins even when reading the model file would fail. -/
theorem guess_layers_force_override_witness :
    conf5.force_layers ≠ 0 ∧
    guess_layers conf5 info0 (.error ⟨"ValueError", "bad gguf"⟩) = .ok 5 := by
  refine ⟨by decide, ?_⟩
  rw [guess_layers_force_override conf5 info0 (.error ⟨"ValueError", "bad gguf"⟩) (by decide)]
  norm_num [conf5]

/-- C7: for a fixed model, the estimate is monotone in the descriptor's
summed accelerator memory and never exceeds the layer count. -/
theorem guess_layers_monotone_in_memory (conf : Config) (info1 info2 : ConnectMessage)
    (L : ℤ) (est t1 t2 : ℚ)
    (hf : conf.force_layers = 0) (hL : 0 < L) (ht1 : 0 ≤ t1) (h12 : t1 ≤ t2)
    (hs1 : sumGpuMem info1.nv_gpus = .ok t1) (hs2 : sumGpuMem info2.nv_gpus = .ok t2) :
    ∃ r1 r2 : ℚ,
      guess_layers conf info1 (.ok ⟨L, est⟩) = .ok r1 ∧
      guess_layers conf info2 (.ok ⟨L, est⟩) = .ok r2 ∧
      r1 ≤ r2 ∧ r1 ≤ (L : ℚ) ∧ r2 ≤ (L : ℚ) := by
  refine ⟨spec_estimate_offload_layers L est t1, spec_estimate_offload_layers L est t2,
    guess_layers_eq_spec conf info1 L est t1 hf hL ht1 hs1,
    guess_layers_eq_spec conf info2 L est t2 hf hL (ht1.trans h12) hs2,
    spec_estimate_mono L est hL ht1 h12,
    spec_estimate_le_layers L est t1 hL ht1,
    spec_estimate_le_layers L est t2 hL (ht1.trans h12)⟩

/-- C7 witness: 1 GB vs 2 GB of accelerator memory for the same model. -/
theorem guess_layers_monotone_in_memory_witness :
    sumGpuMem info1g.nv_gpus = .ok 1000000000 ∧
    sumGpuMem info2g.nv_gpus = .ok 2000000000 ∧
    ∃ r1 r2 : ℚ,
      guess_layers conf0 info1g (.ok ⟨32, 16000000000⟩) = .ok r1 ∧
      guess_layers conf0 info2g (.ok ⟨32, 16000000000⟩) = .ok r2 ∧
      r1 ≤ r2 ∧ r1 ≤ (32 : ℚ) ∧ r2 ≤ (32 : ℚ) := by
  have h1 : sumGpuMem info1g.nv_gpus = .ok 1000000000 := by
    simp [sumGpuMem, info1g, List.foldlM]; norm_num
  have h2 : sumGpuMem info2g.nv_gpus = .ok 2000000000 := by
    simp [sumGpuMem, info2g, List.foldlM]; norm_num
  refine ⟨h1, h2, ?_⟩
  have h := guess_layers_monotone_in_memory conf0 info1g info2g 32 16000000000
    1000000000 2000000000 rfl (by norm_num) (by norm_num) (by norm_num) h1 h2
  exact_mod_cast h

/-- C8: a streaming job whose backend stream completes sends exactly the
backend's fragments, in order, then one empty terminator, and the serving
loop interleaves nothing of any other job into that block. -/
theorem run_one_streaming_fragments_then_terminator (env : Env) (conf : Config)
    (info : ConnectMessage) (st : WorkerState) (req_str : String) (req : Req)
    (st1 : WorkerState) (tr : List LoadEvent) (cli : AsyncClient) (frags : List String)
    (hp : env.parse req_str = .ok req)
    (hstream : req.openai_req.stream = true)
    (hload : load_model env conf info st req.openai_req.model = (st1, none, tr))
    (hcli : st1.llama_cli = some cli)
    (hsse : env.sse cli req.openai_url req.openai_req = (frags, none))
    (honce : conf.once = false) (hstop : st.stopped = false) :
    run_one env conf info st req_str = (st1, frags ++ [""]) ∧
    ∀ rest : List String,
      serve env conf info st (req_str :: rest) =
        ((serve env conf info st1 rest).1,
          (frags ++ [""]) ++ (serve env conf info st1 rest).2) := by
  have hro : run_one env conf info st req_str = (st1, frags ++ [""]) := by
    unfold run_one run_one_try
    rw [hp]
    dsimp only
    rw [hload]
    simp [hstream, hcli, hsse]
  refine ⟨hro, fun rest => ?_⟩
  rw [serve]
  simp [hstop, honce, hro]

/-- C8 witness: two fragments then the empty terminator. -/
theorem run_one_streaming_fragments_then_terminator_witness :
    run_one envStream conf0 info0 stPre "j" = (stPre, ["f1", "f2", ""]) := by
  have h := (run_one_streaming_fragments_then_terminator envStream conf0 info0 stPre "j"
    ⟨"/v1/chat/completions", ⟨some "k", true, []⟩⟩ stPre [] ⟨⟨7⟩, "http://test"⟩ ["f1", "f2"]
    rfl rfl (by simp [load_model, stPre]) rfl rfl rfl rfl).1
  simpa using h

/-- C9: every message list sent over a connection of the reconnect loop
starts with the serialized capability descriptor. -/
theorem handshake_first_on_every_connection (env : Env) (conf : Config)
    (info : ConnectMessage) (st : WorkerState) (conns : List (List String))
    (msgs : List String) (h : msgs ∈ run_conns env conf info st conns) :
    msgs.head? = some (connect_message info) := by
  induction conns generalizing st with
  | nil => simp [run_conns] at h
  | cons c cs ih =>
    rw [run_conns] at h
    by_cases hstop : st.stopped
    · simp [hstop] at h
    · simp only [hstop, if_false] at h
      rcases List.mem_cons.mp h with h1 | h2
      · subst h1
        simp [run_ws]
      · by_cases hstop2 : (run_ws env conf info st c).1.stopped
        · simp [hstop2] at h2
        · simp only [hstop2, if_false] at h2
          exact ih _ h2

/-- C9 witness: a single connection that closes before any job. -/
theorem handshake_first_on_every_connection_witness :
    [connect_message info0] ∈ run_conns envOk conf0 info0 initState [[]] ∧
    ([connect_message info0] : List String).head? = some (connect_message info0) := by
  have hm : [connect_message info0] ∈ run_conns envOk conf0 info0 initState [[]] := by
    simp [run_conns, run_ws, serve, initState]
  exact ⟨hm, handshake_first_on_every_connection envOk conf0 info0 initState [[]] _ hm⟩

/-- C10: a job without a `model` field matches the initial resident-model
value, so no load happens; against the fresh worker state the dispatch then
fails on the unset client and is reported as one structured error result. -/
theorem missing_model_field_no_load_and_error_result (env : Env) (conf : Config)
    (info : ConnectMessage) (req_str : String) (req : Req)
    (hp : env.parse req_str = .ok req) (hm : req.openai_req.model = none) :
    (∀ st : WorkerState, st.llama_model = none →
      load_model env conf info st none = (st, none, [])) ∧
    run_one env conf info initState req_str =
      (initState,
        [errorMsg (if req.openai_req.stream then sseNoneAttrError else postNoneAttrError)]) := by
  constructor
  · intro st hst
    simp [load_model, hst]
  · unfold run_one run_one_try
    rw [hp]
    dsimp only
    rw [hm]
    have hload : load_model env conf info initState none = (initState, none, []) := by
      simp [load_model, initState]
    rw [hload]
    cases hs : req.openai_req.stream <;> simp [initState]

/-- C10 witness: on a fresh worker, a model-less non-streaming job yields
one `AttributeError`-shaped error message. -/
theorem missing_model_field_no_load_and_error_result_witness :
    run_one envNoModel conf0 info0 initState "j"
      = (initState, [errorMsg postNoneAttrError]) := by
  have h := (missing_model_field_no_load_and_error_result envNoModel conf0 info0 "j"
    ⟨"/v1/chat/completions", ⟨none, false, []⟩⟩ rfl rfl).2
  simpa using h

end AiWorker
